import Mathlib

/-!
Verification of the image operation pipeline of the photo-editing backend
(`backend/app/services/image_service.py` and `backend/app/schemas/edit.py`).

Modelling conventions:
* Python float expressions are modelled in exact rational arithmetic.
* 8-bit channel values are natural numbers; saturation is explicit.
* Pillow primitives that the service invokes wholesale (byte decoding and
  encoding, Gaussian blur, the four `ImageEnhance` enhancers, the Lanczos
  resampling kernel, glyph rasterisation, general-angle rotation) are fields
  of an `Env` record of pure functions: within one deployment they are fixed
  deterministic routines.
* Pillow primitives whose precise numeric behaviour the claims depend on are
  embedded concretely: `Image.point` (lookup table built with Python `round`,
  clipped to 0..255 by `CLIP8`), RGB-to-L conversion (ITU-R 601-2 fixed point
  `(19595 r + 38470 g + 7471 b) >> 16`), `Image.blend` (per-channel
  interpolation with C float-to-int truncation and clamping), and the exact
  transpose fast paths of `Image.rotate`.
-/

/-- Python `int()` truncation toward zero, on a rational value. -/
def pyInt (q : ℚ) : ℤ := if q < 0 then -(Int.floor (-q)) else Int.floor q

/-- Python `round()` on a rational value: nearest integer, ties to even. -/
def pyRound (q : ℚ) : ℤ :=
  let f := Int.floor q
  let r := q - (f : ℚ)
  if r < 1/2 then f
  else if (1/2 : ℚ) < r then f + 1
  else if f % 2 = 0 then f else f + 1

/-- Pillow `CLIP8`: clamp an integer to the 8-bit channel range. -/
def clip8 (z : ℤ) : ℕ := (min 255 (max 0 z)).toNat

/-- Color modes occurring in the service: `RGBA` and `P` are tested by
`process_image`, `RGB` is the working mode of the channel operations, and
`L` is produced by `convert('L')`. -/
inductive Mode
  | L
  | P
  | RGB
  | RGBA
  deriving DecidableEq, Repr

/-- Number of bands returned by `Image.split` for each mode. -/
def numChannels : Mode → ℕ
  | Mode.L => 1
  | Mode.P => 1
  | Mode.RGB => 3
  | Mode.RGBA => 4

/-- An in-memory decoded raster: dimensions, color mode and pixel data.
A pixel is the list of its channel values. -/
structure Img where
  width : ℕ
  height : ℕ
  mode : Mode
  pix : ℕ → ℕ → List ℕ

/-- `Image.split`: one single-channel band per channel of the mode. -/
def Img.split (img : Img) : List (ℕ → ℕ → ℕ) :=
  (List.range (numChannels img.mode)).map (fun c => fun x y => (img.pix x y).getD c 0)

/-- Python tuple unpacking `r, g, b = bands`: a `ValueError` unless the list
has exactly three elements. -/
def unpack3 {α : Type} : List α → Except String (α × α × α)
  | [a, b, c] => Except.ok (a, b, c)
  | _ => Except.error "ValueError: cannot unpack bands into r, g, b"

/-- `Image.merge('RGB', (r, g, b))`. -/
def mergeRGB (w h : ℕ) (r g b : ℕ → ℕ → ℕ) : Img :=
  { width := w, height := h, mode := Mode.RGB, pix := fun x y => [r x y, g x y, b x y] }

/-- `Image.point` applied to a band with a float-valued function: Pillow
builds the lookup table with Python `round` over each 8-bit value and the C
layer clamps the table entries with `CLIP8`. -/
def pilPoint (f : ℚ → ℚ) (c : ℕ → ℕ → ℕ) : ℕ → ℕ → ℕ :=
  fun x y => clip8 (pyRound (f (c x y)))

/-- A font resource as produced by font resolution. -/
inductive Font
  | truetype (source : String) (size : ℕ)
  | builtinDefault
  deriving DecidableEq, Repr

/-- The deterministic Pillow and platform primitives that the service calls
but does not itself implement. Each is a pure function: Pillow has no hidden
state, randomness or time dependence in any of these routines, so one
deployment corresponds to one fixed `Env` value. -/
structure Env where
  decode : List ℕ → Option Img
  encode : Img → String → ℕ → List ℕ
  convertRGB : Img → Img
  gaussianBlur : ℚ → Img → Img
  enhanceBrightness : ℚ → Img → Img
  enhanceContrast : ℚ → Img → Img
  enhanceColor : ℚ → Img → Img
  enhanceSharpness : ℚ → Img → Img
  lanczosPix : Img → ℕ → ℕ → ℕ → ℕ → List ℕ
  rotateExpand : Img → ℚ → Img
  truetypeByName : String → ℕ → Option Font
  truetypeByPath : String → ℕ → Option Font
  system : String
  drawText : Img → String → Font → ℤ × ℤ → ℕ × ℕ × ℕ → Img

inductive AdjustmentType
  | brightness
  | contrast
  | saturation
  | sharpness
  | temperature
  | tint
  | exposure
  deriving DecidableEq, Repr

inductive FilterType
  | blur
  | sepia
  | grayscale
  | vignette
  deriving DecidableEq, Repr

structure CropOpV where
  x : ℕ
  y : ℕ
  width : ℕ
  height : ℕ
  deriving DecidableEq, Repr

structure RotateOpV where
  degrees : ℚ
  deriving DecidableEq, Repr

structure ResizeOpV where
  width : Option ℕ
  height : Option ℕ
  deriving DecidableEq, Repr

structure AdjustOpV where
  type : AdjustmentType
  amount : ℚ
  deriving DecidableEq, Repr

structure FilterOpV where
  type : FilterType
  intensity : ℚ
  deriving DecidableEq, Repr

structure TextOpV where
  text : String
  font_size : ℕ
  color : String
  x : ℤ
  y : ℤ
  font_family : String
  deriving DecidableEq, Repr

/-- The tagged union of operations, one variant per kind. -/
inductive Operation
  | crop (o : CropOpV)
  | rotate (o : RotateOpV)
  | resize (o : ResizeOpV)
  | adjust (o : AdjustOpV)
  | filter (o : FilterOpV)
  | text (o : TextOpV)

/-- Python truthiness of an optional integer (`None` and `0` are falsy). -/
def truthy : Option ℕ → Bool
  | none => false
  | some n => n != 0

/-- `_apply_crop`: `img.crop((x, y, x + width, y + height))`; Pillow fills
any out-of-bounds region of the crop box with zero. -/
def applyCrop (img : Img) (o : CropOpV) : Img :=
  { width := o.width, height := o.height, mode := img.mode,
    pix := fun cx cy =>
      if o.x + cx < img.width ∧ o.y + cy < img.height then img.pix (o.x + cx) (o.y + cy)
      else List.replicate (numChannels img.mode) 0 }

/-- `Image.transpose(ROTATE_90)`: quarter turn counterclockwise. -/
def rot90ccw (img : Img) : Img :=
  { width := img.height, height := img.width, mode := img.mode,
    pix := fun x y => img.pix (img.width - 1 - y) x }

/-- `Image.transpose(ROTATE_180)`. -/
def rot180 (img : Img) : Img :=
  { width := img.width, height := img.height, mode := img.mode,
    pix := fun x y => img.pix (img.width - 1 - x) (img.height - 1 - y) }

/-- `Image.transpose(ROTATE_270)`: quarter turn clockwise. -/
def rot270ccw (img : Img) : Img :=
  { width := img.height, height := img.width, mode := img.mode,
    pix := fun x y => img.pix y (img.height - 1 - x) }

/-- Python float modulus `a % b` (sign of the divisor). -/
def qmod (a b : ℚ) : ℚ := a - b * (Int.floor (a / b) : ℚ)

/-- `Image.rotate(angle, expand=True, resample=BICUBIC)`: the angle is
reduced modulo 360; Pillow takes exact transpose fast paths at multiples of
90 (the 90/270 path applies because `expand` is set), and otherwise performs
the general affine rotation with canvas expansion. -/
def pilRotate (env : Env) (img : Img) (angle : ℚ) : Img :=
  let a := qmod angle 360
  if a = 0 then img
  else if a = 180 then rot180 img
  else if a = 90 then rot90ccw img
  else if a = 270 then rot270ccw img
  else env.rotateExpand img a

/-- `_apply_rotate`: `img.rotate(-op.degrees, expand=True)` — the negation
makes a positive `degrees` a clockwise rotation. -/
def applyRotate (env : Env) (img : Img) (o : RotateOpV) : Img :=
  pilRotate env img (-o.degrees)

/-- `_apply_resize`: derive a missing dimension from the current aspect
ratio via Python `int()` truncation, then `img.resize((w, h), LANCZOS)`.
If both dimensions are still `None`, the `resize` call raises a
`TypeError`. -/
def applyResize (env : Env) (img : Img) (o : ResizeOpV) : Except String Img :=
  let w := img.width
  let h := img.height
  let nw := o.width
  let nh := o.height
  let dims : Option ℕ × Option ℕ :=
    if truthy nw && !truthy nh then
      let rt : ℚ := (nw.getD 0 : ℚ) / (w : ℚ)
      (nw, some (pyInt ((h : ℚ) * rt)).toNat)
    else if truthy nh && !truthy nw then
      let rt : ℚ := (nh.getD 0 : ℚ) / (h : ℚ)
      (some (pyInt ((w : ℚ) * rt)).toNat, nh)
    else (nw, nh)
  match dims with
  | (some w2, some h2) =>
      Except.ok { width := w2, height := h2, mode := img.mode,
                  pix := env.lanczosPix img w2 h2 }
  | _ => Except.error "TypeError: resize size must be integers"

/-- `_apply_adjust`: enhancer-based adjustments call the corresponding
`ImageEnhance` primitive; temperature and tint split the image into exactly
three bands (`r, g, b = img.split()`, a `ValueError` on any other band
count), scale the red/blue (resp. green) band with `point`, and merge back
to RGB. `factor = op.amount * 0.3`. -/
def applyAdjust (env : Env) (img : Img) (o : AdjustOpV) : Except String Img :=
  match o.type with
  | AdjustmentType.brightness => Except.ok (env.enhanceBrightness o.amount img)
  | AdjustmentType.contrast => Except.ok (env.enhanceContrast o.amount img)
  | AdjustmentType.saturation => Except.ok (env.enhanceColor o.amount img)
  | AdjustmentType.sharpness => Except.ok (env.enhanceSharpness o.amount img)
  | AdjustmentType.exposure => Except.ok (env.enhanceBrightness o.amount img)
  | AdjustmentType.temperature =>
      match unpack3 img.split with
      | Except.error e => Except.error e
      | Except.ok (r, g, b) =>
          let factor := o.amount * (3/10)
          let r2 := pilPoint (fun i => i * (1 + factor)) r
          let b2 := pilPoint (fun i => i * (1 - factor)) b
          Except.ok (mergeRGB img.width img.height r2 g b2)
  | AdjustmentType.tint =>
      match unpack3 img.split with
      | Except.error e => Except.error e
      | Except.ok (r, g, b) =>
          let factor := o.amount * (3/10)
          let g2 := pilPoint (fun i => i * (1 - factor)) g
          Except.ok (mergeRGB img.width img.height r g2 b)

/-- Pillow RGB-to-L luminance: `(19595 r + 38470 g + 7471 b) >> 16`
(the fixed-point form of ITU-R 601-2 `0.299 r + 0.587 g + 0.114 b`). -/
def lum601 (p : List ℕ) : ℕ :=
  (p.getD 0 0 * 19595 + p.getD 1 0 * 38470 + p.getD 2 0 * 7471) >>> 16

/-- `img.convert('L')`: identity on an `L` image, luminance conversion on
the color bands otherwise (for `RGBA` the alpha band is ignored; the palette
indirection of `P` images is not represented — no claim depends on it). -/
def convertL (img : Img) : Img :=
  match img.mode with
  | Mode.L => img
  | _ => { width := img.width, height := img.height, mode := Mode.L,
           pix := fun x y => [lum601 (img.pix x y)] }

/-- One channel of `Image.blend`: `in1 + alpha * (in2 - in1)` computed in
float, clamped to 0..255 and truncated to an unsigned byte (Pillow's
interpolation branch never needs the clamp since the result lies between the
inputs; the clamp is the extrapolation branch's `CLIP8`). -/
def blendChan (a : ℚ) (p1 p2 : ℕ) : ℕ :=
  let v : ℚ := (p1 : ℚ) + a * ((p2 : ℚ) - (p1 : ℚ))
  if v ≤ 0 then 0 else if 255 ≤ v then 255 else (Int.floor v).toNat

/-- `Image.blend(im1, im2, alpha)`: the images must agree in mode and size;
`alpha = 0` returns a copy of `im1`, `alpha = 1` a copy of `im2`, otherwise
each channel is interpolated. -/
def pilBlend (im1 im2 : Img) (a : ℚ) : Except String Img :=
  if im1.mode ≠ im2.mode then Except.error "ValueError: images do not match"
  else if im1.width ≠ im2.width ∨ im1.height ≠ im2.height then
    Except.error "ValueError: images do not match"
  else if a = 0 then Except.ok im1
  else if a = 1 then Except.ok im2
  else Except.ok { width := im1.width, height := im1.height, mode := im1.mode,
                   pix := fun x y => List.zipWith (blendChan a) (im1.pix x y) (im2.pix x y) }

/-- The per-pixel sepia construction of `_apply_filter`: convert to
grayscale, then map each gray value through
`(min(255, int(gray * 1.0)), min(255, int(gray * 0.95)), min(255, int(gray * 0.82)))`
into a fresh RGB image. -/
def sepiaTone (img : Img) : Img :=
  let grayscale := convertL img
  { width := img.width, height := img.height, mode := Mode.RGB,
    pix := fun x y =>
      let gray := (grayscale.pix x y).getD 0 0
      let r := min 255 (pyInt ((gray : ℚ) * 1)).toNat
      let g := min 255 (pyInt ((gray : ℚ) * (19/20))).toNat
      let b := min 255 (pyInt ((gray : ℚ) * (41/50))).toNat
      [r, g, b] }

/-- `_apply_filter`: blur delegates to `GaussianBlur(radius = intensity * 10)`;
sepia builds `sepiaTone` and blends it with the pre-filter image when
`intensity < 1.0`; every other filter type (grayscale, vignette) falls
through to the trailing `return img`. -/
def applyFilter (env : Env) (img : Img) (o : FilterOpV) : Except String Img :=
  match o.type with
  | FilterType.blur => Except.ok (env.gaussianBlur (o.intensity * 10) img)
  | FilterType.sepia =>
      let sepia := sepiaTone img
      if o.intensity < 1 then pilBlend img sepia o.intensity
      else Except.ok sepia
  | _ => Except.ok img

/-- Value of a hexadecimal digit character. -/
def hexDigitVal (c : Char) : ℕ :=
  if c.isDigit then c.toNat - Char.toNat '0'
  else if 'a' ≤ c ∧ c ≤ 'f' then 10 + (c.toNat - Char.toNat 'a')
  else if 'A' ≤ c ∧ c ≤ 'F' then 10 + (c.toNat - Char.toNat 'A')
  else 0

/-- Membership in the character class `[0-9A-Fa-f]`. -/
def isHexChar (c : Char) : Bool :=
  c.isDigit || ('a' ≤ c && c ≤ 'f') || ('A' ≤ c && c ≤ 'F')

/-- `op.color.lstrip('#')` followed by `int(hex[i:i+2], 16)` at offsets
0, 2 and 4. -/
def parseColor (s : String) : ℕ × ℕ × ℕ :=
  let t := s.data.dropWhile (fun c => c = '#')
  (16 * hexDigitVal (t.getD 0 '0') + hexDigitVal (t.getD 1 '0'),
   16 * hexDigitVal (t.getD 2 '0') + hexDigitVal (t.getD 3 '0'),
   16 * hexDigitVal (t.getD 4 '0') + hexDigitVal (t.getD 5 '0'))

/-- Naive substring test, modelling Python `needle in haystack`. -/
def listHasInfix (needle hay : List Char) : Bool :=
  (List.range (hay.length + 1)).any (fun i => needle.isPrefixOf (hay.drop i))

/-- The platform-specific well-known font path of `_apply_text`: macOS maps
to `/System/Library/Fonts` (with a special case for any family containing
"Arial"), Linux to the DejaVu directory, anything else to the Windows font
directory. -/
def fontPathFor (system family : String) : String :=
  if system = "Darwin" then
    if listHasInfix ("Arial").data family.data then
      "/System/Library/Fonts/Supplemental/Arial.ttf"
    else "/System/Library/Fonts/" ++ family ++ ".ttf"
  else if system = "Linux" then
    "/usr/share/fonts/truetype/dejavu/" ++ family ++ ".ttf"
  else "C:\\Windows\\Fonts\\" ++ family ++ ".ttf"

/-- Font resolution of `_apply_text`: try the family as an installed font
name (`truetype` raises `OSError` on failure, modelled as `none`), then the
platform-specific well-known path (any failure is swallowed by a bare
`except`), and finally the always-available built-in default font. -/
def resolveFont (env : Env) (family : String) (size : ℕ) : Font :=
  match env.truetypeByName family size with
  | some f => f
  | none =>
      match env.truetypeByPath (fontPathFor env.system family) size with
      | some f => f
      | none => Font.builtinDefault

/-- `_apply_text`: draw on a copy of the image (values are immutable here,
so the copy is the image itself) with the parsed color and resolved font. -/
def applyText (env : Env) (img : Img) (o : TextOpV) : Img :=
  let imgCopy := img
  let rgb := parseColor o.color
  let font := resolveFont env o.font_family o.font_size
  env.drawText imgCopy o.text font (o.x, o.y) rgb

/-- The per-operation dispatch of `process_image`. -/
def applyOp (env : Env) (img : Img) (op : Operation) : Except String Img :=
  match op with
  | Operation.crop o => Except.ok (applyCrop img o)
  | Operation.rotate o => Except.ok (applyRotate env img o)
  | Operation.resize o => applyResize env img o
  | Operation.adjust o => applyAdjust env img o
  | Operation.filter o => applyFilter env img o
  | Operation.text o => Except.ok (applyText env img o)

/-- Python `str.upper()` on the character list (ASCII, which covers the
format names used here). -/
def pyUpper (s : String) : String := String.mk (s.data.map Char.toUpper)

/-- `ImageService.process_image`: decode, normalize RGBA/palette images to
RGB when the output format is JPEG, apply the operations in list order
(any executor failure aborts the run), then encode. -/
def process_image (env : Env) (image_bytes : List ℕ) (operations : List Operation)
    (format : String) (quality : ℕ) : Except String (List ℕ) :=
  match env.decode image_bytes with
  | none => Except.error "UnidentifiedImageError: cannot identify image file"
  | some img0 =>
      let img1 :=
        if (img0.mode = Mode.RGBA ∨ img0.mode = Mode.P) ∧ pyUpper format = "JPEG" then
          env.convertRGB img0
        else img0
      match operations.foldlM (applyOp env) img1 with
      | Except.error e => Except.error e
      | Except.ok imgF => Except.ok (env.encode imgF format quality)

/-- Pydantic v2 construction of `ResizeOp`. A field argument is `none` when
the key is absent from the payload and `some v` when it is supplied
(`some none` is an explicit JSON null). Faithful to pydantic semantics:
the `gt=0` constraint and the `validate_dimensions` field validator run only
for supplied values (defaults are never validated), and the validator on
`width` sees only previously validated fields, so its `values.get('height')`
is always `None` — an explicitly supplied null width therefore always
raises, while an absent width skips the check entirely. -/
def mkResizeOp (width height : Option (Option ℤ)) : Except String ResizeOpV :=
  match width with
  | none =>
      match height with
      | none => Except.ok { width := none, height := none }
      | some none => Except.ok { width := none, height := none }
      | some (some hv) =>
          if 0 < hv then Except.ok { width := none, height := some hv.toNat }
          else Except.error "ValidationError: height must be greater than 0"
  | some (some wv) =>
      if 0 < wv then
        match height with
        | none => Except.ok { width := some wv.toNat, height := none }
        | some none => Except.ok { width := some wv.toNat, height := none }
        | some (some hv) =>
            if 0 < hv then Except.ok { width := some wv.toNat, height := some hv.toNat }
            else Except.error "ValidationError: height must be greater than 0"
      else Except.error "ValidationError: width must be greater than 0"
  | some none =>
      Except.error "ValidationError: Either width or height must be provided"

/-- The anchored color constraint of the `TextOp` schema,
`pattern="^#[0-9A-Fa-f]{6}$"`: a mandatory leading hash followed by exactly
six hexadecimal digits. -/
def matchesColorField (s : String) : Bool :=
  match s.data with
  | '#' :: rest => rest.length = 6 && rest.all isHexChar
  | _ => false

/-- Modelled from the spec: the color pattern as the claim states it,
`^#?[0-9A-Fa-f]{6}$` — six hexadecimal digits with an OPTIONAL leading
hash. -/
def spec_colorPattern (s : String) : Bool :=
  match s.data with
  | '#' :: rest => rest.length = 6 && rest.all isHexChar
  | cs => cs.length = 6 && cs.all isHexChar

/-- Pydantic construction of `TextOp`: text length 1..500, font size
10..200, color matching the anchored hash pattern. -/
def mkTextOp (text : String) (font_size : ℕ) (color : String) (x y : ℤ)
    (font_family : String) : Except String TextOpV :=
  if text.length < 1 then Except.error "ValidationError: text too short"
  else if 500 < text.length then Except.error "ValidationError: text too long"
  else if font_size < 10 then Except.error "ValidationError: font_size below 10"
  else if 200 < font_size then Except.error "ValidationError: font_size above 200"
  else if matchesColorField color then
    Except.ok { text := text, font_size := font_size, color := color,
                x := x, y := y, font_family := font_family }
  else Except.error "ValidationError: color does not match the required pattern"

/-- Modelled from the spec: the clockwise quarter turn in raster
coordinates (origin top left, y downward). A clockwise rotation by 90
degrees sends the source pixel (x, y) to (H - 1 - y, x), so the output
pixel at (x, y) is the source pixel at (y, H - 1 - x) and the canvas
becomes H x W. -/
def spec_rotateClockwise90 (img : Img) : Img :=
  { width := img.height, height := img.width, mode := img.mode,
    pix := fun x y => img.pix y (img.height - 1 - x) }

/-- Modelled from the spec: the pure sepia mapping of a gray value `g`,
`(min(255, g * 1.00), min(255, g * 0.95), min(255, g * 0.82))` with the
products truncated to integers. -/
def spec_sepiaMap (g : ℕ) : List ℕ :=
  [min 255 g, min 255 (g * 19 / 20), min 255 (g * 41 / 50)]

/-- A minimal 1x1 RGB image. -/
def idImg : Img := { width := 1, height := 1, mode := Mode.RGB, pix := fun _ _ => [0, 0, 0] }

/-- A 1x1 RGB image whose only pixel is visibly not desaturated. -/
def c2img : Img := { width := 1, height := 1, mode := Mode.RGB, pix := fun _ _ => [10, 200, 30] }

/-- A 1x1 RGB image with distinct channel values. -/
def c3img : Img := { width := 1, height := 1, mode := Mode.RGB, pix := fun _ _ => [100, 150, 200] }

/-- A 1x1 RGBA image (four bands). -/
def c10img : Img := { width := 1, height := 1, mode := Mode.RGBA, pix := fun _ _ => [1, 2, 3, 4] }

/-- A 200x100 image, the source of the spec's resize example. -/
def img200x100 : Img := { width := 200, height := 100, mode := Mode.RGB, pix := fun _ _ => [0, 0, 0] }

/-- A 3x2 RGB image with pairwise distinct pixels, for the rotation
witness. -/
def img3x2 : Img :=
  { width := 3, height := 2, mode := Mode.RGB, pix := fun x y => [x, y, 0] }

/-- A sample text operation payload. -/
def sampleTextOp : TextOpV :=
  { text := "hi", font_size := 32, color := "#FFFFFF", x := 10, y := 10, font_family := "Arial" }

/-- A concrete deployment environment, used by the witnesses. -/
def trivEnv : Env where
  decode := fun _ => some idImg
  encode := fun _ _ _ => []
  convertRGB := fun i => { i with mode := Mode.RGB }
  gaussianBlur := fun _ i => i
  enhanceBrightness := fun _ i => i
  enhanceContrast := fun _ i => i
  enhanceColor := fun _ i => i
  enhanceSharpness := fun _ i => i
  lanczosPix := fun i _ _ => i.pix
  rotateExpand := fun i _ => i
  truetypeByName := fun _ _ => none
  truetypeByPath := fun _ _ => none
  system := "Linux"
  drawText := fun i _ _ _ _ => i

lemma pyInt_of_nonneg {q : ℚ} (h : 0 ≤ q) : pyInt q = Int.floor q := by
  rw [pyInt, if_neg (not_lt.mpr h)]

lemma pyInt_div_toNat (a b : ℕ) : (pyInt ((a : ℚ) / (b : ℚ))).toNat = a / b := by
  rw [pyInt_of_nonneg (by positivity), Int.floor_toNat, Nat.floor_div_nat, Nat.floor_natCast]

lemma pyRound_nonneg {q : ℚ} (h : 0 ≤ q) : 0 ≤ pyRound q := by
  have hf : 0 ≤ Int.floor q := Int.floor_nonneg.mpr h
  simp only [pyRound]
  split_ifs <;> omega

lemma clip8_of_nonneg {z : ℤ} (h : 0 ≤ z) : clip8 z = min 255 z.toNat := by
  unfold clip8
  omega

/-- C1: the claim states that constructing `Resize{}` with both dimensions
absent fails with a `ValidationError`. The code's `validate_dimensions`
validator is meant to enforce this, but pydantic does not run field
validators for fields that are not supplied (defaults are not validated),
so construction of `ResizeOp()` from `{"op": "resize"}` actually succeeds
with `width = height = None`; the failure is only raised later, when
`_apply_resize` reaches `img.resize((None, None))` and crashes with a
`TypeError` instead of the promised pre-pixel-work `ValidationError`. -/
theorem C1_resize_both_absent_accepted :
    mkResizeOp none none = Except.ok { width := none, height := none } ∧
    ∃ e, applyResize trivEnv idImg { width := none, height := none } = Except.error e :=
  ⟨rfl, ⟨_, rfl⟩⟩

/-- C2 (amended): `Filter{grayscale}` leaves the working image unchanged —
`_apply_filter` implements only the blur and sepia branches and falls
through to `return img` for grayscale (and vignette); no desaturation
occurs. -/
theorem C2_grayscale_unchanged (env : Env) (img : Img) (i : ℚ) :
    applyFilter env img { type := FilterType.grayscale, intensity := i } = Except.ok img :=
  rfl

/-- C2 counterexample to the claim as stated: on a 1x1 RGB image with pixel
(10, 200, 30), the grayscale filter returns the image unchanged, and the
resulting pixel's channels do not carry a single replicated luminance value
(the red and green channels differ). -/
theorem C2_grayscale_counterexample :
    applyFilter trivEnv c2img { type := FilterType.grayscale, intensity := 1 } = Except.ok c2img ∧
    (c2img.pix 0 0).getD 0 0 = 10 ∧ (c2img.pix 0 0).getD 1 0 = 200 ∧ (10 : ℕ) ≠ 200 :=
  ⟨rfl, rfl, rfl, by decide⟩

/-- C9: the pipeline is deterministic — it is a pure function of the source
bytes, the operation list, the output format and the quality (the `Env` of
Pillow/platform primitives is fixed within a deployment), so two runs on the
same inputs produce identical encoded output. -/
theorem C9_pipeline_deterministic (env : Env) (image_bytes : List ℕ)
    (ops : List Operation) (format : String) (quality : ℕ)
    (o1 o2 : Except String (List ℕ))
    (h1 : o1 = process_image env image_bytes ops format quality)
    (h2 : o2 = process_image env image_bytes ops format quality) :
    o1 = o2 :=
  h1.trans h2.symm

theorem C9_pipeline_deterministic_witness :
    process_image trivEnv [] [] "PNG" 85 = process_image trivEnv [] [] "PNG" 85 :=
  C9_pipeline_deterministic trivEnv [] [] "PNG" 85 _ _ rfl rfl

/-- C8: font resolution never fails — it tries the installed font name,
then the platform-specific well-known path, and otherwise returns the
built-in default font, so a text overlay operation always produces an image
and never aborts the pipeline. -/
theorem C8_font_resolution_total (env : Env) (family : String) (size : ℕ)
    (img : Img) (o : TextOpV) :
    (∀ f, env.truetypeByName family size = some f → resolveFont env family size = f) ∧
    (env.truetypeByName family size = none →
      ∀ f, env.truetypeByPath (fontPathFor env.system family) size = some f →
        resolveFont env family size = f) ∧
    (env.truetypeByName family size = none →
      env.truetypeByPath (fontPathFor env.system family) size = none →
      resolveFont env family size = Font.builtinDefault) ∧
    ∃ out, applyOp env img (Operation.text o) = Except.ok out := by
  refine ⟨?_, ?_, ?_, ⟨_, rfl⟩⟩
  · intro f hf
    unfold resolveFont
    rw [hf]
  · intro h0 f hf
    unfold resolveFont
    rw [h0, hf]
  · intro h0 h1
    unfold resolveFont
    rw [h0, h1]

theorem C8_font_resolution_total_witness :
    trivEnv.truetypeByName "Arial" 32 = none ∧
    resolveFont trivEnv "Arial" 32 = Font.builtinDefault ∧
    ∃ out, applyOp trivEnv idImg (Operation.text sampleTextOp) = Except.ok out :=
  ⟨rfl, (C8_font_resolution_total trivEnv "Arial" 32 idImg sampleTextOp).2.2.1 rfl rfl,
    (C8_font_resolution_total trivEnv "Arial" 32 idImg sampleTextOp).2.2.2⟩

lemma unpack3_split_error (img : Img) (hmode : img.mode ≠ Mode.RGB) :
    unpack3 img.split = Except.error "ValueError: cannot unpack bands into r, g, b" := by
  unfold Img.split
  cases h : img.mode with
  | RGB => exact absurd h hmode
  | L => rfl
  | P => rfl
  | RGBA => rfl

lemma unpack3_split_rgb (img : Img) (hmode : img.mode = Mode.RGB) :
    unpack3 img.split = Except.ok
      (fun x y => (img.pix x y).getD 0 0,
       fun x y => (img.pix x y).getD 1 0,
       fun x y => (img.pix x y).getD 2 0) := by
  unfold Img.split
  rw [hmode]
  rfl

/-- C10: the temperature and tint adjustments unpack `img.split()` into
exactly three bands, so on any working image whose mode is not three-channel
RGB (RGBA, palette, or single-channel grayscale) they raise a `ValueError`,
which aborts the whole pipeline run. -/
theorem C10_adjust_requires_rgb (env : Env) (img : Img) (a : ℚ) (q : ℕ)
    (image_bytes : List ℕ) (hmode : img.mode ≠ Mode.RGB) :
    (∃ e, applyAdjust env img { type := AdjustmentType.temperature, amount := a } =
      Except.error e) ∧
    (∃ e, applyAdjust env img { type := AdjustmentType.tint, amount := a } =
      Except.error e) ∧
    (∃ e, process_image { env with decode := fun _ => some img } image_bytes
        [Operation.adjust { type := AdjustmentType.temperature, amount := a }] "PNG" q =
      Except.error e) := by
  have hsplit := unpack3_split_error img hmode
  have hcond : ¬((img.mode = Mode.RGBA ∨ img.mode = Mode.P) ∧
      pyUpper "PNG" = "JPEG") := fun hc => absurd hc.2 (by decide)
  refine ⟨⟨"ValueError: cannot unpack bands into r, g, b", ?_⟩,
    ⟨"ValueError: cannot unpack bands into r, g, b", ?_⟩,
    ⟨"ValueError: cannot unpack bands into r, g, b", ?_⟩⟩
  · simp only [applyAdjust, hsplit]
  · simp only [applyAdjust, hsplit]
  · unfold process_image
    simp only [if_neg hcond, List.foldlM, applyOp, applyAdjust, hsplit]
    rfl

theorem C10_adjust_requires_rgb_witness :
    c10img.mode ≠ Mode.RGB ∧
    ∃ e, applyAdjust trivEnv c10img { type := AdjustmentType.temperature, amount := 1 } =
      Except.error e :=
  ⟨by decide, (C10_adjust_requires_rgb trivEnv c10img 1 85 [] (by decide)).1⟩

/-- C4: on an RGB image, the temperature adjustment maps every red channel
value `r` to `clip8(round(r * (1 + 0.3 * amount)))` and every blue channel
value `b` to `clip8(round(b * (1 - 0.3 * amount)))`, leaving green
untouched; results saturate at the channel maximum 255. In particular for
`amount = 1` the red channel is scaled by exactly 1.3 and the blue channel
by exactly 0.7, saturated at 255. -/
theorem C4_temperature_channel_scaling (env : Env) (img : Img) (a : ℚ)
    (hmode : img.mode = Mode.RGB) :
    ∃ out, applyAdjust env img { type := AdjustmentType.temperature, amount := a } =
        Except.ok out ∧
      out.width = img.width ∧ out.height = img.height ∧
      (∀ x y, out.pix x y =
        [clip8 (pyRound (((img.pix x y).getD 0 0 : ℚ) * (1 + a * (3/10)))),
         (img.pix x y).getD 1 0,
         clip8 (pyRound (((img.pix x y).getD 2 0 : ℚ) * (1 - a * (3/10))))]) ∧
      (a = 1 → ∀ x y, out.pix x y =
        [min 255 (pyRound (((img.pix x y).getD 0 0 : ℚ) * (13/10))).toNat,
         (img.pix x y).getD 1 0,
         min 255 (pyRound (((img.pix x y).getD 2 0 : ℚ) * (7/10))).toNat]) := by
  have hs := unpack3_split_rgb img hmode
  refine ⟨mergeRGB img.width img.height
      (pilPoint (fun i => i * (1 + a * (3/10))) (fun x y => (img.pix x y).getD 0 0))
      (fun x y => (img.pix x y).getD 1 0)
      (pilPoint (fun i => i * (1 - a * (3/10))) (fun x y => (img.pix x y).getD 2 0)),
    ?_, rfl, rfl, fun x y => rfl, ?_⟩
  · simp only [applyAdjust, hs]
  · intro ha x y
    subst ha
    have e1 : clip8 (pyRound (((img.pix x y).getD 0 0 : ℚ) * (1 + 1 * (3/10)))) =
        min 255 (pyRound (((img.pix x y).getD 0 0 : ℚ) * (13/10))).toNat := by
      rw [show ((1 : ℚ) + 1 * (3/10)) = 13/10 by norm_num]
      exact clip8_of_nonneg (pyRound_nonneg (by positivity))
    have e2 : clip8 (pyRound (((img.pix x y).getD 2 0 : ℚ) * (1 - 1 * (3/10)))) =
        min 255 (pyRound (((img.pix x y).getD 2 0 : ℚ) * (7/10))).toNat := by
      rw [show ((1 : ℚ) - 1 * (3/10)) = 7/10 by norm_num]
      exact clip8_of_nonneg (pyRound_nonneg (by positivity))
    calc (mergeRGB img.width img.height
            (pilPoint (fun i => i * (1 + 1 * (3/10))) (fun x y => (img.pix x y).getD 0 0))
            (fun x y => (img.pix x y).getD 1 0)
            (pilPoint (fun i => i * (1 - 1 * (3/10))) (fun x y => (img.pix x y).getD 2 0))).pix x y
        = [clip8 (pyRound (((img.pix x y).getD 0 0 : ℚ) * (1 + 1 * (3/10)))),
           (img.pix x y).getD 1 0,
           clip8 (pyRound (((img.pix x y).getD 2 0 : ℚ) * (1 - 1 * (3/10))))] := rfl
      _ = [min 255 (pyRound (((img.pix x y).getD 0 0 : ℚ) * (13/10))).toNat,
           (img.pix x y).getD 1 0,
           min 255 (pyRound (((img.pix x y).getD 2 0 : ℚ) * (7/10))).toNat] := by
          rw [e1, e2]

theorem C4_temperature_channel_scaling_witness :
    c3img.mode = Mode.RGB ∧
    ∃ out, applyAdjust trivEnv c3img { type := AdjustmentType.temperature, amount := 1 } =
      Except.ok out :=
  ⟨rfl, (C4_temperature_channel_scaling trivEnv c3img 1 rfl).elim fun out h => ⟨out, h.1⟩⟩

lemma pyInt_aspect (h w2 w : ℕ) :
    (pyInt ((h : ℚ) * ((w2 : ℚ) / (w : ℚ)))).toNat = h * w2 / w := by
  rw [show ((h : ℚ) * ((w2 : ℚ) / (w : ℚ))) = ((h * w2 : ℕ) : ℚ) / (w : ℚ) by push_cast; ring]
  exact pyInt_div_toNat (h * w2) w

/-- C5: a resize with exactly one dimension given keeps that dimension and
derives the other from the current image's aspect ratio by integer
truncation of the scaled value; in particular on a 200x100 image,
`Resize{width:100}` and `Resize{height:50}` both produce a 100x50 image. -/
theorem C5_resize_aspect (env : Env) (img : Img) (w2 h2 : ℕ)
    (hw2 : 0 < w2) (hh2 : 0 < h2) :
    (∃ out, applyResize env img { width := some w2, height := none } = Except.ok out ∧
      out.width = w2 ∧ out.height = img.height * w2 / img.width) ∧
    (∃ out, applyResize env img { width := none, height := some h2 } = Except.ok out ∧
      out.width = img.width * h2 / img.height ∧ out.height = h2) ∧
    (∃ out, applyResize trivEnv img200x100 { width := some 100, height := none } =
      Except.ok out ∧ out.width = 100 ∧ out.height = 50) ∧
    (∃ out, applyResize trivEnv img200x100 { width := none, height := some 50 } =
      Except.ok out ∧ out.width = 100 ∧ out.height = 50) := by
  have hc1 : (truthy (some w2) && !truthy none) = true := by
    simp [truthy, hw2.ne']
  have hn1 : ¬((truthy (none : Option ℕ) && !truthy (some h2)) = true) := by
    simp [truthy]
  have hc2 : (truthy (some h2) && !truthy none) = true := by
    simp [truthy, hh2.ne']
  refine ⟨?_, ?_, ?_, ?_⟩
  · refine ⟨{ width := w2,
              height := (pyInt ((img.height : ℚ) * ((w2 : ℚ) / (img.width : ℚ)))).toNat,
              mode := img.mode,
              pix := env.lanczosPix img w2
                ((pyInt ((img.height : ℚ) * ((w2 : ℚ) / (img.width : ℚ)))).toNat) },
      ?_, rfl, ?_⟩
    · simp only [applyResize]
      rw [if_pos hc1]
      rfl
    · exact pyInt_aspect img.height w2 img.width
  · refine ⟨{ width := (pyInt ((img.width : ℚ) * ((h2 : ℚ) / (img.height : ℚ)))).toNat,
              height := h2,
              mode := img.mode,
              pix := env.lanczosPix img
                ((pyInt ((img.width : ℚ) * ((h2 : ℚ) / (img.height : ℚ)))).toNat) h2 },
      ?_, ?_, rfl⟩
    · simp only [applyResize]
      rw [if_neg hn1, if_pos hc2]
      rfl
    · exact pyInt_aspect img.width h2 img.height
  · exact ⟨_, rfl, rfl, by (norm_num [img200x100, pyInt]; decide)⟩
  · exact ⟨_, rfl, by (norm_num [img200x100, pyInt]; decide), rfl⟩

theorem C5_resize_aspect_witness :
    (0 : ℕ) < 100 ∧
    ∃ out, applyResize trivEnv img200x100 { width := some 100, height := none } =
      Except.ok out ∧ out.width = 100 ∧
      out.height = img200x100.height * 100 / img200x100.width :=
  ⟨by decide, (C5_resize_aspect trivEnv img200x100 100 50 (by decide) (by decide)).1⟩

/-- C6: `Rotate{degrees:90}` takes Pillow's exact transpose fast path:
the output is precisely the clockwise quarter turn of the working image —
the canvas dimensions are swapped (height x width, no expansion padding)
and each output pixel (x, y) is the source pixel (y, H - 1 - x). -/
theorem C6_rotate90_clockwise (env : Env) (img : Img) :
    applyRotate env img { degrees := 90 } = spec_rotateClockwise90 img ∧
    (applyRotate env img { degrees := 90 }).width = img.height ∧
    (applyRotate env img { degrees := 90 }).height = img.width := by
  have hq : qmod (-(90 : ℚ)) 360 = 270 := by
    have hf : Int.floor ((-(90 : ℚ)) / 360) = -1 := by
      rw [show ((-(90 : ℚ)) / 360) = -(1/4) by norm_num]
      norm_num
    unfold qmod
    rw [hf]
    norm_num
  have h1 : applyRotate env img { degrees := 90 } = rot270ccw img := by
    simp only [applyRotate, pilRotate]
    rw [hq]
    norm_num
  rw [h1]
  exact ⟨rfl, rfl, rfl⟩

lemma sepia_components (g : ℕ) :
    [min 255 (pyInt ((g : ℚ) * 1)).toNat,
     min 255 (pyInt ((g : ℚ) * (19/20))).toNat,
     min 255 (pyInt ((g : ℚ) * (41/50))).toNat] = spec_sepiaMap g := by
  unfold spec_sepiaMap
  have e1 : (pyInt ((g : ℚ) * 1)).toNat = g := by
    rw [mul_one, pyInt_of_nonneg (by positivity), Int.floor_natCast, Int.toNat_natCast]
  have e2 : (pyInt ((g : ℚ) * (19/20))).toNat = g * 19 / 20 := by
    rw [show ((g : ℚ) * (19/20)) = ((g * 19 : ℕ) : ℚ) / ((20 : ℕ) : ℚ) by push_cast; ring]
    exact pyInt_div_toNat (g * 19) 20
  have e3 : (pyInt ((g : ℚ) * (41/50))).toNat = g * 41 / 50 := by
    rw [show ((g : ℚ) * (41/50)) = ((g * 41 : ℕ) : ℚ) / ((50 : ℕ) : ℚ) by push_cast; ring]
    exact pyInt_div_toNat (g * 41) 50
  rw [e1, e2, e3]

lemma sepiaTone_pix (img : Img) (hmode : img.mode = Mode.RGB) (x y : ℕ) :
    (sepiaTone img).pix x y = spec_sepiaMap (lum601 (img.pix x y)) := by
  have hc : (convertL img).pix x y = [lum601 (img.pix x y)] := by
    unfold convertL
    rw [hmode]
  simp only [sepiaTone, hc, List.getD_cons_zero]
  exact sepia_components (lum601 (img.pix x y))

/-- C3: the sepia blend law on an RGB image — intensity 0 returns the input
unchanged, intensity 1 returns the pure sepia mapping of each pixel's
grayscale value, and an intermediate intensity returns the per-channel
linear blend (by that intensity) of the pre-filter original image with the
pure sepia image. -/
theorem C3_sepia_blend_law (env : Env) (img : Img) (a : ℚ)
    (hmode : img.mode = Mode.RGB) :
    applyFilter env img { type := FilterType.sepia, intensity := 0 } = Except.ok img ∧
    (∃ out, applyFilter env img { type := FilterType.sepia, intensity := 1 } = Except.ok out ∧
      ∀ x y, out.pix x y = spec_sepiaMap (lum601 (img.pix x y))) ∧
    (0 < a → a < 1 →
      ∃ out, applyFilter env img { type := FilterType.sepia, intensity := a } = Except.ok out ∧
        out.width = img.width ∧ out.height = img.height ∧
        ∀ x y, out.pix x y =
          List.zipWith (blendChan a) (img.pix x y) (spec_sepiaMap (lum601 (img.pix x y)))) := by
  have hmode2 : (sepiaTone img).mode = Mode.RGB := rfl
  have hw : (sepiaTone img).width = img.width := rfl
  have hh : (sepiaTone img).height = img.height := rfl
  refine ⟨?_, ?_, ?_⟩
  · simp only [applyFilter]
    rw [if_pos (show (0 : ℚ) < 1 by norm_num)]
    unfold pilBlend
    rw [if_neg (by simp [hmode2, hmode]), if_neg (by simp [hw, hh]), if_pos rfl]
  · simp only [applyFilter]
    rw [if_neg (show ¬((1 : ℚ) < 1) by norm_num)]
    exact ⟨sepiaTone img, rfl, fun x y => sepiaTone_pix img hmode x y⟩
  · intro ha0 ha1
    simp only [applyFilter]
    rw [if_pos ha1]
    unfold pilBlend
    rw [if_neg (by simp [hmode2, hmode]), if_neg (by simp [hw, hh]),
      if_neg ha0.ne', if_neg ha1.ne]
    refine ⟨_, rfl, rfl, rfl, ?_⟩
    intro x y
    dsimp only
    rw [sepiaTone_pix img hmode x y]

theorem C3_sepia_blend_law_witness :
    c3img.mode = Mode.RGB ∧
    applyFilter trivEnv c3img { type := FilterType.sepia, intensity := 0 } = Except.ok c3img ∧
    ∃ out, applyFilter trivEnv c3img { type := FilterType.sepia, intensity := 1/2 } =
      Except.ok out ∧ out.width = c3img.width ∧ out.height = c3img.height ∧
      ∀ x y, out.pix x y =
        List.zipWith (blendChan (1/2)) (c3img.pix x y) (spec_sepiaMap (lum601 (c3img.pix x y))) :=
  ⟨rfl, (C3_sepia_blend_law trivEnv c3img (1/2) rfl).1,
    (C3_sepia_blend_law trivEnv c3img (1/2) rfl).2.2 (by norm_num) (by norm_num)⟩

/-- C7 counterexample to the claim as stated: the string "FFFFFF" matches
the claimed pattern with its optional hash, yet `TextOp` construction fails,
because the schema's anchored pattern makes the leading hash mandatory. -/
theorem C7_color_pattern_counterexample :
    spec_colorPattern "FFFFFF" = true ∧
    matchesColorField "FFFFFF" = false ∧
    ∃ e, mkTextOp "hi" 32 "FFFFFF" 0 0 "Arial" = Except.error e := by
  refine ⟨by decide, by decide,
    ⟨"ValidationError: color does not match the required pattern", ?_⟩⟩
  rfl

/-- C7 (amended): with the other fields within their constraints, `TextOp`
construction succeeds exactly when the color matches the schema pattern
`#[0-9A-Fa-f]{6}` anchored at both ends — six hex digits with a MANDATORY
leading hash — and fails with a `ValidationError` otherwise. -/
theorem C7_color_validation (text : String) (font_size : ℕ) (color : String)
    (x y : ℤ) (font_family : String)
    (h1 : 1 ≤ text.length) (h2 : text.length ≤ 500)
    (h3 : 10 ≤ font_size) (h4 : font_size ≤ 200) :
    (∃ op, mkTextOp text font_size color x y font_family = Except.ok op) ↔
      matchesColorField color = true := by
  unfold mkTextOp
  rw [if_neg (by omega), if_neg (by omega), if_neg (by omega), if_neg (by omega)]
  by_cases hc : matchesColorField color = true
  · rw [if_pos hc]
    exact iff_of_true ⟨_, rfl⟩ hc
  · rw [if_neg hc]
    refine iff_of_false ?_ hc
    rintro ⟨op, hop⟩
    exact Except.noConfusion hop

theorem C7_color_validation_witness :
    (1 ≤ String.length "hi" ∧ String.length "hi" ≤ 500 ∧
      10 ≤ 32 ∧ 32 ≤ 200) ∧
    matchesColorField "#FFFFFF" = true ∧
    ∃ op, mkTextOp "hi" 32 "#FFFFFF" 0 0 "Arial" = Except.ok op :=
  ⟨⟨by decide, by decide, by decide, by decide⟩, by decide,
    (C7_color_validation "hi" 32 "#FFFFFF" 0 0 "Arial" (by decide) (by decide) (by decide)
      (by decide)).mpr (by decide)⟩
